import Mathlib

/-!
Shallow embedding of `src/K-webserver/locust/locustfile.py`.

The file defines three Locust user classes (`KWebappAPIUser`,
`KWebappHeavyLoadUser`, `KWebappRealisticUser`) plus a subclass
(`WebsiteUser(KWebappAPIUser)` adding no tasks).  Each class initialises
literal sample-identifier lists in `on_start` and defines weighted tasks
that build an HTTP GET request from random draws and classify the response
by its status code.

Modelling conventions:
* Python's `random.randint(a, b)` (inclusive bounds) is `randint a b r`
  where `r : Nat` is the oracle draw; `random.choice(xs)` is
  `randchoice xs d r` (with default `d` standing for the exception Python
  would raise on an empty list — every list used here is non-empty).
* `random.random() < p` is modelled by a `Bool` oracle field, since only
  the comparison's outcome influences the program.
* `int(time.time() * 1000000)` is a clock read in microseconds, an `Int`;
  `rapid_pagination_test` performs three successive reads `t1, t2, t3`.
* An HTTP response is its status code, its text, and the result of
  `response.json()` — `some j` when the body parses to the JSON value `j`,
  `none` when `.json()` raises.
* Request parameter dictionaries become association lists `String × Json`
  in Python insertion order; string values are `Json.str`, integer values
  `Json.num`.
-/

/-- JSON values, the possible results of `response.json()` and the raw
values Python stores in `params` dictionaries. -/
inductive Json where
  | null : Json
  | bool (b : Bool) : Json
  | num (n : Int) : Json
  | str (s : String) : Json
  | arr (elems : List Json) : Json
  | obj (fields : List (String × Json)) : Json

/-- Python truthiness of a JSON value (`if data['posts']:` etc.). -/
def Json.truthy : Json → Bool
  | .null => false
  | .bool b => b
  | .num n => n ≠ 0
  | .str s => s ≠ ""
  | .arr xs => !xs.isEmpty
  | .obj fs => !fs.isEmpty

/-- Dictionary lookup `fields[key]` on a parsed JSON object. -/
def Json.lookupField (fields : List (String × Json)) (key : String) : Option Json :=
  (fields.find? (fun p => p.1 = key)).map (fun p => p.2)

/-- Python `random.randint(a, b)`: a uniform draw from the inclusive range
`[a, b]`, driven by the oracle value `r`. -/
def randint (a b r : Nat) : Nat := a + r % (b + 1 - a)

/-- Python `random.choice(xs)`: a uniform element of `xs` driven by the
oracle value `r`; `d` is returned for the empty list, where Python raises. -/
def randchoice {α : Type} (xs : List α) (d : α) (r : Nat) : α :=
  xs.getD (r % xs.length) d

/-- An HTTP request as issued through `self.client`: the method string, the
URL path, and the query parameters in insertion order. -/
structure Request where
  method : String
  path : String
  params : List (String × Json)

/-- Locust's `self.client.get(path, params=...)` issues a GET request. -/
def clientGet (path : String) (params : List (String × Json)) : Request :=
  { method := "GET", path := path, params := params }

/-- An HTTP response as the tasks observe it: the status code, the body
text, and the outcome of `response.json()` (`none` when parsing raises). -/
structure Response where
  status_code : Nat
  text : String
  jsonBody : Option Json

/-- Lookup of a query parameter of a request by key. -/
def Request.findParam (req : Request) (key : String) : Option Json :=
  (req.params.find? (fun p => p.1 = key)).map (fun p => p.2)

/-- Per-virtual-user state: the fields assigned by the `on_start` methods.
`users_with_follows` and `session_posts` are set only by the classes that
declare them and stay `[]` for the others. -/
structure UserState where
  sample_pubkeys : List String
  sample_post_ids : List String
  users_with_follows : List String
  requester_pubkey : String
  session_posts : List Json

namespace KWebappAPIUser

/-- Literal list `self.sample_pubkeys` of `KWebappAPIUser.on_start`. -/
def sample_pubkeys : List String := [
  "03edeacd90b1fe7ee696e21ddd81083fd44a245642a4a5cade455c465c9ce80e1b",
  "032c1de780180d4e5100e17e304996284d187fdeb5ac837f32c04d62b73aaefe18",
  "03f5a6fde99bc8e9ab6c6c92a08bafe622e533c7dad7f4eec2edef35baaa5a9bc6",
  "0280bc073a2f016dbd6df25c4e843a5f801d3d940fc384d79f8103e42297be5986",
  "020bc57bc1fb10751dc18282931a07cd6ace772217f0c4d843bc2b1a71670d7de1",
  "03b1f9ed63976b28ad4e648b9da672679bd27895def79159f372eeea30df45abf7",
  "0367ff507f241fa0b4e90779952d7ed36731a77021db0982fbabd0fbfa036bd8ee",
  "030fd8f1b20f57abf99d61c95db9a149c5a9e0502817ba257d6adf32d0a4708ebe",
  "02405d3f51e96e18ebe1894242551baf10edd5307721b761a8a1e5d3a8df8817f9",
  "0327900e8385a066dff50e90c1851a39ed107cf90897b6fad0da63020bb8327fbd",
  "02dd3235798995ebc348613b7403d5bfbc277b3e3b7414ce3e166f4adacff7f532",
  "038f29db80e35e9086adc7af56383625bb7dc5cf3690bc092dcd210039db3d825d",
  "02bddf1f69dc78dcc8c656a7d9a8bc65256e26bbac970ef2c23e2f5e0982112d65",
  "033d01709a02bf78f95e09cd00ba93ad8fb7c8ac11e6d3f871a11062eeb2aa8cd8",
  "038ea9ca1fe1f22cc8074cc576e0870cf50f773c90c1f4830fd6ba6f60771cc1f3",
  "02218b3732df2353978154ec5323b745bce9520a5ed506a96de4f4e3dad20dc44f",
  "03f56f6ad1c1166e330fb2897ae60afcb25afa10006212cfee24264c04d21bce60",
  "0223ca2161f47a142e77f85c398b839a65b8c799e22968d3214a25aee616bd00b6",
  "0327c058e497477d175674381a30ff36e5309f7c0f5bc9dc683506de6549e40562",
  "024d3fe4f26cd652d91f4173c7517af9c0254de833cc25924fc2d475768008fd15",
  "0207e2bd14de5a9e7e39b00437cfe58ad64af128678485029b5fe304b841d1b076",
  "03466b99d7ca36044fdc1c486d0c40c1ecf024f54554377fb005a40b16b08637cc"]

/-- Literal list `self.sample_post_ids` of `KWebappAPIUser.on_start`. -/
def sample_post_ids : List String := [
  "40dfcbfff3ad1c8a0c80bfd8bddf574b75a796d644c4f508ae63f7e47ed3d2bf",
  "7c0b5d4d995eb86b076ab787a96c9d1180219a7dfc8de419b7dd0958e02723d9",
  "b1c455ffdbf96f8199641a0ef42d96f55d7261b4abd3c28d7eb384742e098e82",
  "0e5b63242a970cc5fb567dd71c223a62a74507821fc1b9fe5eb3df9c258ffce8",
  "996bc414134275c4d8638e339f1a30e88da4f495219ae7494ddafd2e413d5c3a",
  "a9ef66ac8fec30431547a2c3e71fbbf7a04f859f5800177cd0f93abc69b10ae3",
  "7401c334fed3383d73a96f3d46c2cbad93d70798f469eaf93e985994fcd805dc",
  "e0893f1f8d990f2672a5d30c90c3bc0982899fd645a71785f268161d8e1ab8c0",
  "e6ff72cc7958f5ef6beaf5660b6ba95787758a2d3fe405adf9864ee3eadd37d0",
  "631857e3ad73a2e5c05b193b56fcd9d9c89dc40daad06d0e4b1f7128d660f4d0",
  "8035e96070ec133288f8be16b2885c23740ccaf2558d4d5d868256814dd23aff",
  "2c7f16c10ecffe3f845cfa0e06fd5cdceb87f30c9938ef9ca24918b2d5b96cb6",
  "9d2ffa4aab2ecd054d3ed2d760aa800fc35c028a064595ebd8bbd907f74a6fcf",
  "e26b14bfde54bbed157aeb85d358e22c8e6fb21d5503cf86b63dc97a246df85b",
  "889bb1cc99260789e570be64513ff4afa65982eaa920ddb3ebc7ca58f09a38fe",
  "c8f371509f38638a05aab45bef069574736b38f837ed2c6eacfed59c099e3f8c",
  "e1b110094f672b02ceec8a2949cdeb1ceaf498422b91d2774b1b9e127e41cde4",
  "91a489d1c0202a49b830bf3a0ed6570d7a1b3051e16397d5052b99bd4d51d805",
  "239605f8e78044793cad47f6dc36df7a991152c45469cd4a4a0d383dc55dcb6d",
  "17088141aba4e07dccb515dfbda3106480d7c65b64e2ba7ff70f9e87715280f6",
  "e3bf67aa5b1aa53096b742afa382fcc60c370b4cf8d3942c423247d9925cebeb",
  "6ee1dc36863c391e02ec290445fed2c36f534d937d84acd74c7495ead78b4874",
  "85bc33d5e5daf886158f796eaea614894f730f212e339edbe92962714fa793fd",
  "1fde0de5ff86edac61e09fa2f1588f7ff140ee036a500a6f6ccbadb4304d38a5",
  "62ae89ffd92ffabf040d820cd00f23fa6c1bc2ad02ddd630a71ba5244da19862",
  "17a9c41ad5e935a7e0448bfbfe2ec779d35cdefb785d4e0a5958733d9ddfeae2",
  "f3e9e85eb3c6e594bc26d4b83b31214332af7b26a0bb15849300a8d172346139",
  "7bd455cc044a035b1cc7ee911207cbcda692ee3b453e48710ed626190e384688",
  "a295cf6cee11a75b7f32a376d3c6c918d6b64668c3b4665df2bcf5bde21627f0",
  "634c4cee207a386602bafcd7db95c1a77f14fc322c89e21fc33d2d641e714b05",
  "5e37c2ac01628876bc368530d625ee7d9622026e7e494707d1e3024bd26b5d4b",
  "4a5bc584d79539a225e2916cb47cbbf7e54b4ff4244f640a3acd43b4ec79f3f7",
  "06448fcb7dfb7a6e68e7b421302fac2c2d9c5d678127f9e746e9047c3ca455b1",
  "7b62f663652ae758d1b2daa7f6ee8b1e260dc65ad6bdf6f233c2452f6cd31066",
  "7ab4535d619ab06095825d312221227769ac856d8e8dc3ed7c88829052567730",
  "fdd2788f42aa3903fd9f4b86f2ae32162f9da7be2dcc4760aba69d65139c9bac",
  "34d6b4d2ed35cc4cf010809985a681f403555e3e3704edca6135a5b9d7771171",
  "df5f1d79531f75e33fa9c534c1362fc6d42f561854f29c69f4893fa73f03560d",
  "855bed8163845d91bb12fa724f5e9d14a06769c6b38a26acaf2be406bfdc68ad",
  "12eb841d2c281c6c3eb6c3c09fbe4b161d10e3c8a321c06e7b859b8dd1d43168"]

/-- Literal list `self.users_with_follows` of `KWebappAPIUser.on_start`. -/
def users_with_follows : List String := [
  "0367ff507f241fa0b4e90779952d7ed36731a77021db0982fbabd0fbfa036bd8ee",
  "038ea9ca1fe1f22cc8074cc576e0870cf50f773c90c1f4830fd6ba6f60771cc1f3",
  "03edeacd90b1fe7ee696e21ddd81083fd44a245642a4a5cade455c465c9ce80e1b",
  "02299c80be550c23bfe10954cf7f3c62a9f8e9af45df3a62ab665633a5e8b32c87",
  "03f5a6fde99bc8e9ab6c6c92a08bafe622e533c7dad7f4eec2edef35baaa5a9bc6"]

/-- Method `KWebappAPIUser.on_start`: installs the literal lists and draws
`self.requester_pubkey = random.choice(self.sample_pubkeys)`. -/
def on_start (r : Nat) : UserState :=
  { sample_pubkeys := sample_pubkeys
    sample_post_ids := sample_post_ids
    users_with_follows := users_with_follows
    requester_pubkey := randchoice sample_pubkeys "" r
    session_posts := [] }

end KWebappAPIUser

namespace KWebappHeavyLoadUser

/-- Literal list `self.sample_pubkeys` of `KWebappHeavyLoadUser.on_start`. -/
def sample_pubkeys : List String := [
  "03edeacd90b1fe7ee696e21ddd81083fd44a245642a4a5cade455c465c9ce80e1b",
  "032c1de780180d4e5100e17e304996284d187fdeb5ac837f32c04d62b73aaefe18",
  "03f5a6fde99bc8e9ab6c6c92a08bafe622e533c7dad7f4eec2edef35baaa5a9bc6",
  "0280bc073a2f016dbd6df25c4e843a5f801d3d940fc384d79f8103e42297be5986",
  "020bc57bc1fb10751dc18282931a07cd6ace772217f0c4d843bc2b1a71670d7de1",
  "02b1c109f322e0ee42c75434cd2c45c1e2e6dd09ad8127dbf3f0d9bb25ddf15f6b",
  "03e5a3ad26b8df8e67e0b23b8e1e70a4adc2b05a6a6d3f3c47ca47c53e97f4b741",
  "02e7c8a2e8e9c0c4a2b4a1e2d1c3b4a5e6f7c8d9e0a1b2c3d4e5f6a7b8c9d0e1f2",
  "03a1b2c3d4e5f6a7b8c9d0e1f2a3b4c5d6e7f8a9b0c1d2e3f4a5b6c7d8e9f0a1b2",
  "0367ff507f241fa0b4e90779952d7ed36731a77021db0982fbabd0fbfa036bd8ee",
  "038ea9ca1fe1f22cc8074cc576e0870cf50f773c90c1f4830fd6ba6f60771cc1f3",
  "02f1e2d3c4b5a6978695a4b3c2d1e0f9e8d7c6b5a4938271605f4e3d2c1b0a9f8e",
  "03c1d2e3f4a5b6c7d8e9f0a1b2c3d4e5f6a7b8c9d0e1f2a3b4c5d6e7f8a9b0c1d2",
  "02d1e2f3a4b5c6d7e8f9a0b1c2d3e4f5a6b7c8d9e0f1a2b3c4d5e6f7a8b9c0d1e2",
  "03b1c2d3e4f5a6b7c8d9e0f1a2b3c4d5e6f7a8b9c0d1e2f3a4b5c6d7e8f9a0b1c2",
  "02a1b2c3d4e5f6a7b8c9d0e1f2a3b4c5d6e7f8a9b0c1d2e3f4a5b6c7d8e9f0a1b2",
  "03d1e2f3a4b5c6d7e8f9a0b1c2d3e4f5a6b7c8d9e0f1a2b3c4d5e6f7a8b9c0d1e2",
  "02c1d2e3f4a5b6c7d8e9f0a1b2c3d4e5f6a7b8c9d0e1f2a3b4c5d6e7f8a9b0c1d2",
  "03e1f2a3b4c5d6e7f8a9b0c1d2e3f4a5b6c7d8e9f0a1b2c3d4e5f6a7b8c9d0e1f2",
  "02e1f2a3b4c5d6e7f8a9b0c1d2e3f4a5b6c7d8e9f0a1b2c3d4e5f6a7b8c9d0e1f2",
  "03f1a2b3c4d5e6f7a8b9c0d1e2f3a4b5c6d7e8f9a0b1c2d3e4f5a6b7c8d9e0f1a2",
  "02f1a2b3c4d5e6f7a8b9c0d1e2f3a4b5c6d7e8f9a0b1c2d3e4f5a6b7c8d9e0f1a2"
  ]

/-- Literal list `self.sample_post_ids` of `KWebappHeavyLoadUser.on_start`. -/
def sample_post_ids : List String := [
  "40dfcbfff3ad1c8a0c80bfd8bddf574b75a796d644c4f508ae63f7e47ed3d2bf",
  "7c0b5d4d995eb86b076ab787a96c9d1180219a7dfc8de419b7dd0958e02723d9",
  "b1c455ffdbf96f8199641a0ef42d96f55d7261b4abd3c28d7eb384742e098e82",
  "0e5b63242a970cc5fb567dd71c223a62a74507821fc1b9fe5eb3df9c258ffce8",
  "89c3a29ff0c89bef82e2e6c8c4a5f3b7d1e9f4a2b8c6d3e7f1a5b9c2d8e4f7a1b6",
  "1a2b3c4d5e6f7a8b9c0d1e2f3a4b5c6d7e8f9a0b1c2d3e4f5a6b7c8d9e0f1a2b3",
  "2b3c4d5e6f7a8b9c0d1e2f3a4b5c6d7e8f9a0b1c2d3e4f5a6b7c8d9e0f1a2b3c4",
  "3c4d5e6f7a8b9c0d1e2f3a4b5c6d7e8f9a0b1c2d3e4f5a6b7c8d9e0f1a2b3c4d5",
  "4d5e6f7a8b9c0d1e2f3a4b5c6d7e8f9a0b1c2d3e4f5a6b7c8d9e0f1a2b3c4d5e6",
  "5e6f7a8b9c0d1e2f3a4b5c6d7e8f9a0b1c2d3e4f5a6b7c8d9e0f1a2b3c4d5e6f7",
  "6f7a8b9c0d1e2f3a4b5c6d7e8f9a0b1c2d3e4f5a6b7c8d9e0f1a2b3c4d5e6f7a8",
  "7a8b9c0d1e2f3a4b5c6d7e8f9a0b1c2d3e4f5a6b7c8d9e0f1a2b3c4d5e6f7a8b9",
  "8b9c0d1e2f3a4b5c6d7e8f9a0b1c2d3e4f5a6b7c8d9e0f1a2b3c4d5e6f7a8b9c0",
  "9c0d1e2f3a4b5c6d7e8f9a0b1c2d3e4f5a6b7c8d9e0f1a2b3c4d5e6f7a8b9c0d1",
  "a1b2c3d4e5f6a7b8c9d0e1f2a3b4c5d6e7f8a9b0c1d2e3f4a5b6c7d8e9f0a1b2c3",
  "b2c3d4e5f6a7b8c9d0e1f2a3b4c5d6e7f8a9b0c1d2e3f4a5b6c7d8e9f0a1b2c3d4",
  "c3d4e5f6a7b8c9d0e1f2a3b4c5d6e7f8a9b0c1d2e3f4a5b6c7d8e9f0a1b2c3d4e5",
  "d4e5f6a7b8c9d0e1f2a3b4c5d6e7f8a9b0c1d2e3f4a5b6c7d8e9f0a1b2c3d4e5f6",
  "e5f6a7b8c9d0e1f2a3b4c5d6e7f8a9b0c1d2e3f4a5b6c7d8e9f0a1b2c3d4e5f6a7",
  "f6a7b8c9d0e1f2a3b4c5d6e7f8a9b0c1d2e3f4a5b6c7d8e9f0a1b2c3d4e5f6a7b8",
  "a7b8c9d0e1f2a3b4c5d6e7f8a9b0c1d2e3f4a5b6c7d8e9f0a1b2c3d4e5f6a7b8c9",
  "b8c9d0e1f2a3b4c5d6e7f8a9b0c1d2e3f4a5b6c7d8e9f0a1b2c3d4e5f6a7b8c9d0",
  "c9d0e1f2a3b4c5d6e7f8a9b0c1d2e3f4a5b6c7d8e9f0a1b2c3d4e5f6a7b8c9d0e1",
  "d0e1f2a3b4c5d6e7f8a9b0c1d2e3f4a5b6c7d8e9f0a1b2c3d4e5f6a7b8c9d0e1f2",
  "e1f2a3b4c5d6e7f8a9b0c1d2e3f4a5b6c7d8e9f0a1b2c3d4e5f6a7b8c9d0e1f2a3",
  "f2a3b4c5d6e7f8a9b0c1d2e3f4a5b6c7d8e9f0a1b2c3d4e5f6a7b8c9d0e1f2a3b4",
  "a3b4c5d6e7f8a9b0c1d2e3f4a5b6c7d8e9f0a1b2c3d4e5f6a7b8c9d0e1f2a3b4c5",
  "b4c5d6e7f8a9b0c1d2e3f4a5b6c7d8e9f0a1b2c3d4e5f6a7b8c9d0e1f2a3b4c5d6",
  "c5d6e7f8a9b0c1d2e3f4a5b6c7d8e9f0a1b2c3d4e5f6a7b8c9d0e1f2a3b4c5d6e7",
  "d6e7f8a9b0c1d2e3f4a5b6c7d8e9f0a1b2c3d4e5f6a7b8c9d0e1f2a3b4c5d6e7f8",
  "e7f8a9b0c1d2e3f4a5b6c7d8e9f0a1b2c3d4e5f6a7b8c9d0e1f2a3b4c5d6e7f8a9",
  "f8a9b0c1d2e3f4a5b6c7d8e9f0a1b2c3d4e5f6a7b8c9d0e1f2a3b4c5d6e7f8a9b0",
  "a9b0c1d2e3f4a5b6c7d8e9f0a1b2c3d4e5f6a7b8c9d0e1f2a3b4c5d6e7f8a9b0c1",
  "b0c1d2e3f4a5b6c7d8e9f0a1b2c3d4e5f6a7b8c9d0e1f2a3b4c5d6e7f8a9b0c1d2",
  "c1d2e3f4a5b6c7d8e9f0a1b2c3d4e5f6a7b8c9d0e1f2a3b4c5d6e7f8a9b0c1d2e3",
  "d2e3f4a5b6c7d8e9f0a1b2c3d4e5f6a7b8c9d0e1f2a3b4c5d6e7f8a9b0c1d2e3f4",
  "e3f4a5b6c7d8e9f0a1b2c3d4e5f6a7b8c9d0e1f2a3b4c5d6e7f8a9b0c1d2e3f4a5",
  "f4a5b6c7d8e9f0a1b2c3d4e5f6a7b8c9d0e1f2a3b4c5d6e7f8a9b0c1d2e3f4a5b6",
  "a5b6c7d8e9f0a1b2c3d4e5f6a7b8c9d0e1f2a3b4c5d6e7f8a9b0c1d2e3f4a5b6c7",
  "b6c7d8e9f0a1b2c3d4e5f6a7b8c9d0e1f2a3b4c5d6e7f8a9b0c1d2e3f4a5b6c7d8"
  ]

/-- Method `KWebappHeavyLoadUser.on_start`: installs the literal lists and
draws `self.requester_pubkey`; this class declares no
`users_with_follows` and no `session_posts`. -/
def on_start (r : Nat) : UserState :=
  { sample_pubkeys := sample_pubkeys
    sample_post_ids := sample_post_ids
    users_with_follows := []
    requester_pubkey := randchoice sample_pubkeys "" r
    session_posts := [] }

end KWebappHeavyLoadUser

namespace KWebappRealisticUser

/-- Literal list `self.sample_pubkeys` of `KWebappRealisticUser.on_start`. -/
def sample_pubkeys : List String := [
  "03edeacd90b1fe7ee696e21ddd81083fd44a245642a4a5cade455c465c9ce80e1b",
  "032c1de780180d4e5100e17e304996284d187fdeb5ac837f32c04d62b73aaefe18",
  "03f5a6fde99bc8e9ab6c6c92a08bafe622e533c7dad7f4eec2edef35baaa5a9bc6",
  "0280bc073a2f016dbd6df25c4e843a5f801d3d940fc384d79f8103e42297be5986",
  "020bc57bc1fb10751dc18282931a07cd6ace772217f0c4d843bc2b1a71670d7de1",
  "02b1c109f322e0ee42c75434cd2c45c1e2e6dd09ad8127dbf3f0d9bb25ddf15f6b",
  "03e5a3ad26b8df8e67e0b23b8e1e70a4adc2b05a6a6d3f3c47ca47c53e97f4b741",
  "02e7c8a2e8e9c0c4a2b4a1e2d1c3b4a5e6f7c8d9e0a1b2c3d4e5f6a7b8c9d0e1f2",
  "03a1b2c3d4e5f6a7b8c9d0e1f2a3b4c5d6e7f8a9b0c1d2e3f4a5b6c7d8e9f0a1b2",
  "0367ff507f241fa0b4e90779952d7ed36731a77021db0982fbabd0fbfa036bd8ee",
  "038ea9ca1fe1f22cc8074cc576e0870cf50f773c90c1f4830fd6ba6f60771cc1f3",
  "02f1e2d3c4b5a6978695a4b3c2d1e0f9e8d7c6b5a4938271605f4e3d2c1b0a9f8e",
  "03c1d2e3f4a5b6c7d8e9f0a1b2c3d4e5f6a7b8c9d0e1f2a3b4c5d6e7f8a9b0c1d2",
  "02d1e2f3a4b5c6d7e8f9a0b1c2d3e4f5a6b7c8d9e0f1a2b3c4d5e6f7a8b9c0d1e2",
  "03b1c2d3e4f5a6b7c8d9e0f1a2b3c4d5e6f7a8b9c0d1e2f3a4b5c6d7e8f9a0b1c2",
  "02a1b2c3d4e5f6a7b8c9d0e1f2a3b4c5d6e7f8a9b0c1d2e3f4a5b6c7d8e9f0a1b2",
  "03d1e2f3a4b5c6d7e8f9a0b1c2d3e4f5a6b7c8d9e0f1a2b3c4d5e6f7a8b9c0d1e2",
  "02c1d2e3f4a5b6c7d8e9f0a1b2c3d4e5f6a7b8c9d0e1f2a3b4c5d6e7f8a9b0c1d2",
  "03e1f2a3b4c5d6e7f8a9b0c1d2e3f4a5b6c7d8e9f0a1b2c3d4e5f6a7b8c9d0e1f2",
  "02e1f2a3b4c5d6e7f8a9b0c1d2e3f4a5b6c7d8e9f0a1b2c3d4e5f6a7b8c9d0e1f2",
  "03f1a2b3c4d5e6f7a8b9c0d1e2f3a4b5c6d7e8f9a0b1c2d3e4f5a6b7c8d9e0f1a2",
  "02f1a2b3c4d5e6f7a8b9c0d1e2f3a4b5c6d7e8f9a0b1c2d3e4f5a6b7c8d9e0f1a2"
  ]

/-- Literal list `self.users_with_follows` of `KWebappRealisticUser.on_start`. -/
def users_with_follows : List String := [
  "0367ff507f241fa0b4e90779952d7ed36731a77021db0982fbabd0fbfa036bd8ee",
  "038ea9ca1fe1f22cc8074cc576e0870cf50f773c90c1f4830fd6ba6f60771cc1f3",
  "03edeacd90b1fe7ee696e21ddd81083fd44a245642a4a5cade455c465c9ce80e1b"
  ]

/-- Literal list `self.sample_post_ids` of `KWebappRealisticUser.on_start`. -/
def sample_post_ids : List String := [
  "40dfcbfff3ad1c8a0c80bfd8bddf574b75a796d644c4f508ae63f7e47ed3d2bf",
  "7c0b5d4d995eb86b076ab787a96c9d1180219a7dfc8de419b7dd0958e02723d9",
  "b1c455ffdbf96f8199641a0ef42d96f55d7261b4abd3c28d7eb384742e098e82",
  "0e5b63242a970cc5fb567dd71c223a62a74507821fc1b9fe5eb3df9c258ffce8",
  "89c3a29ff0c89bef82e2e6c8c4a5f3b7d1e9f4a2b8c6d3e7f1a5b9c2d8e4f7a1b6",
  "1a2b3c4d5e6f7a8b9c0d1e2f3a4b5c6d7e8f9a0b1c2d3e4f5a6b7c8d9e0f1a2b3",
  "2b3c4d5e6f7a8b9c0d1e2f3a4b5c6d7e8f9a0b1c2d3e4f5a6b7c8d9e0f1a2b3c4",
  "3c4d5e6f7a8b9c0d1e2f3a4b5c6d7e8f9a0b1c2d3e4f5a6b7c8d9e0f1a2b3c4d5",
  "4d5e6f7a8b9c0d1e2f3a4b5c6d7e8f9a0b1c2d3e4f5a6b7c8d9e0f1a2b3c4d5e6",
  "5e6f7a8b9c0d1e2f3a4b5c6d7e8f9a0b1c2d3e4f5a6b7c8d9e0f1a2b3c4d5e6f7",
  "6f7a8b9c0d1e2f3a4b5c6d7e8f9a0b1c2d3e4f5a6b7c8d9e0f1a2b3c4d5e6f7a8",
  "7a8b9c0d1e2f3a4b5c6d7e8f9a0b1c2d3e4f5a6b7c8d9e0f1a2b3c4d5e6f7a8b9",
  "8b9c0d1e2f3a4b5c6d7e8f9a0b1c2d3e4f5a6b7c8d9e0f1a2b3c4d5e6f7a8b9c0",
  "9c0d1e2f3a4b5c6d7e8f9a0b1c2d3e4f5a6b7c8d9e0f1a2b3c4d5e6f7a8b9c0d1",
  "a1b2c3d4e5f6a7b8c9d0e1f2a3b4c5d6e7f8a9b0c1d2e3f4a5b6c7d8e9f0a1b2c3",
  "b2c3d4e5f6a7b8c9d0e1f2a3b4c5d6e7f8a9b0c1d2e3f4a5b6c7d8e9f0a1b2c3d4",
  "c3d4e5f6a7b8c9d0e1f2a3b4c5d6e7f8a9b0c1d2e3f4a5b6c7d8e9f0a1b2c3d4e5",
  "d4e5f6a7b8c9d0e1f2a3b4c5d6e7f8a9b0c1d2e3f4a5b6c7d8e9f0a1b2c3d4e5f6",
  "e5f6a7b8c9d0e1f2a3b4c5d6e7f8a9b0c1d2e3f4a5b6c7d8e9f0a1b2c3d4e5f6a7",
  "f6a7b8c9d0e1f2a3b4c5d6e7f8a9b0c1d2e3f4a5b6c7d8e9f0a1b2c3d4e5f6a7b8",
  "a7b8c9d0e1f2a3b4c5d6e7f8a9b0c1d2e3f4a5b6c7d8e9f0a1b2c3d4e5f6a7b8c9",
  "b8c9d0e1f2a3b4c5d6e7f8a9b0c1d2e3f4a5b6c7d8e9f0a1b2c3d4e5f6a7b8c9d0",
  "c9d0e1f2a3b4c5d6e7f8a9b0c1d2e3f4a5b6c7d8e9f0a1b2c3d4e5f6a7b8c9d0e1",
  "d0e1f2a3b4c5d6e7f8a9b0c1d2e3f4a5b6c7d8e9f0a1b2c3d4e5f6a7b8c9d0e1f2",
  "e1f2a3b4c5d6e7f8a9b0c1d2e3f4a5b6c7d8e9f0a1b2c3d4e5f6a7b8c9d0e1f2a3",
  "f2a3b4c5d6e7f8a9b0c1d2e3f4a5b6c7d8e9f0a1b2c3d4e5f6a7b8c9d0e1f2a3b4",
  "a3b4c5d6e7f8a9b0c1d2e3f4a5b6c7d8e9f0a1b2c3d4e5f6a7b8c9d0e1f2a3b4c5",
  "b4c5d6e7f8a9b0c1d2e3f4a5b6c7d8e9f0a1b2c3d4e5f6a7b8c9d0e1f2a3b4c5d6",
  "c5d6e7f8a9b0c1d2e3f4a5b6c7d8e9f0a1b2c3d4e5f6a7b8c9d0e1f2a3b4c5d6e7",
  "d6e7f8a9b0c1d2e3f4a5b6c7d8e9f0a1b2c3d4e5f6a7b8c9d0e1f2a3b4c5d6e7f8",
  "e7f8a9b0c1d2e3f4a5b6c7d8e9f0a1b2c3d4e5f6a7b8c9d0e1f2a3b4c5d6e7f8a9",
  "f8a9b0c1d2e3f4a5b6c7d8e9f0a1b2c3d4e5f6a7b8c9d0e1f2a3b4c5d6e7f8a9b0",
  "a9b0c1d2e3f4a5b6c7d8e9f0a1b2c3d4e5f6a7b8c9d0e1f2a3b4c5d6e7f8a9b0c1",
  "b0c1d2e3f4a5b6c7d8e9f0a1b2c3d4e5f6a7b8c9d0e1f2a3b4c5d6e7f8a9b0c1d2",
  "c1d2e3f4a5b6c7d8e9f0a1b2c3d4e5f6a7b8c9d0e1f2a3b4c5d6e7f8a9b0c1d2e3",
  "d2e3f4a5b6c7d8e9f0a1b2c3d4e5f6a7b8c9d0e1f2a3b4c5d6e7f8a9b0c1d2e3f4",
  "e3f4a5b6c7d8e9f0a1b2c3d4e5f6a7b8c9d0e1f2a3b4c5d6e7f8a9b0c1d2e3f4a5",
  "f4a5b6c7d8e9f0a1b2c3d4e5f6a7b8c9d0e1f2a3b4c5d6e7f8a9b0c1d2e3f4a5b6",
  "a5b6c7d8e9f0a1b2c3d4e5f6a7b8c9d0e1f2a3b4c5d6e7f8a9b0c1d2e3f4a5b6c7",
  "b6c7d8e9f0a1b2c3d4e5f6a7b8c9d0e1f2a3b4c5d6e7f8a9b0c1d2e3f4a5b6c7d8"
  ]

/-- Method `KWebappRealisticUser.on_start`: installs the literal lists,
draws `self.requester_pubkey`, and initialises `self.session_posts = []`. -/
def on_start (r : Nat) : UserState :=
  { sample_pubkeys := sample_pubkeys
    sample_post_ids := sample_post_ids
    users_with_follows := users_with_follows
    requester_pubkey := randchoice sample_pubkeys "" r
    session_posts := [] }

end KWebappRealisticUser

/-- The tasks defined across the three user classes (the subclass
`WebsiteUser(KWebappAPIUser)` only inherits tasks). -/
inductive TaskId where
  | get_posts_watching
  | get_content_following
  | get_mentions
  | get_notifications
  | get_notification_count
  | get_users
  | get_posts
  | get_replies_by_post
  | get_replies_by_user
  | get_post_details
  | get_user_details
  | get_blocked_users
  | get_followed_users
  | test_health_endpoint
  | rapid_posts_watching
  | rapid_pagination_test
  | browse_following_feed
  | browse_watching_feed
  | check_notifications
  | check_mentions
  | view_post_details
  | browse_user_discovery
  | check_own_posts
  | view_user_profile
deriving DecidableEq, Fintype

/-- Random/clock oracle for one task execution: `r1 … r4` drive the
successive `random.randint`/`random.choice` calls in source order, `flag`
is the outcome of the `random.random() < p` test, and `t1 t2 t3` are the
successive `int(time.time() * 1000000)` clock reads in microseconds. -/
structure Rnd where
  r1 : Nat
  r2 : Nat
  r3 : Nat
  r4 : Nat
  flag : Bool
  t1 : Int
  t2 : Int
  t3 : Int

/-- Pagination cursor string built by the tasks:
`f-string of (clock read minus random.randint(3600000000, 86400000000))`,
an underscore, and `random.randint(1, 1000)`. -/
def beforeCursor (now : Int) (rOff rSeq : Nat) : String :=
  toString (now - (randint 3600000000 86400000000 rOff : Int)) ++ "_"
    ++ toString (randint 1 1000 rSeq)

/-- Local list `timestamps` of `KWebappHeavyLoadUser.rapid_pagination_test`:
three successive clock reads minus one, two and three hours (in
microseconds). -/
def rapid_pagination_timestamps (o : Rnd) : List Int :=
  [o.t1 - 3600000000, o.t2 - 7200000000, o.t3 - 10800000000]

/-- Hardcoded fallback post ID of `KWebappRealisticUser.view_post_details`. -/
def fallback_post_id : String :=
  "40dfcbfff3ad1c8a0c80bfd8bddf574b75a796d644c4f508ae63f7e47ed3d2bf"

/-- The requests one execution of a task issues, given the virtual user's
state and the oracle.  Each case transcribes the parameter dictionary and
the `self.client.get` call(s) of the corresponding method. -/
def requestsOf (t : TaskId) (st : UserState) (o : Rnd) : List Request :=
  match t with
  | .get_posts_watching =>
      let params := [("requesterPubkey", Json.str st.requester_pubkey),
                     ("limit", Json.num (randint 10 50 o.r1 : Int))]
      let params := if o.flag
        then params ++ [("before", Json.str (beforeCursor o.t1 o.r2 o.r3))] else params
      [clientGet "/get-posts-watching" params]
  | .get_content_following =>
      let params := [("requesterPubkey", Json.str (randchoice st.users_with_follows "" o.r1)),
                     ("limit", Json.num (randint 10 50 o.r2 : Int))]
      let params := if o.flag
        then params ++ [("before", Json.str (beforeCursor o.t1 o.r3 o.r4))] else params
      [clientGet "/get-content-following" params]
  | .get_mentions =>
      let params := [("user", Json.str (randchoice st.sample_pubkeys "" o.r1)),
                     ("requesterPubkey", Json.str st.requester_pubkey),
                     ("limit", Json.num (randint 10 30 o.r2 : Int))]
      let params := if o.flag
        then params ++ [("before", Json.str (beforeCursor o.t1 o.r3 o.r4))] else params
      [clientGet "/get-mentions" params]
  | .get_notifications =>
      let params := [("user", Json.str (randchoice st.sample_pubkeys "" o.r1)),
                     ("requesterPubkey", Json.str st.requester_pubkey),
                     ("limit", Json.num (randint 10 30 o.r2 : Int))]
      let params := if o.flag
        then params ++ [("before", Json.str (beforeCursor o.t1 o.r3 o.r4))] else params
      [clientGet "/get-notifications" params]
  | .get_notification_count =>
      [clientGet "/get-notification-count"
        [("user", Json.str (randchoice st.sample_pubkeys "" o.r1)),
         ("requesterPubkey", Json.str st.requester_pubkey)]]
  | .get_users =>
      let params := [("requesterPubkey", Json.str st.requester_pubkey),
                     ("limit", Json.num (randint 10 100 o.r1 : Int))]
      let params := if o.flag
        then params ++ [("before", Json.str (beforeCursor o.t1 o.r2 o.r3))] else params
      [clientGet "/get-users" params]
  | .get_posts =>
      let params := [("user", Json.str (randchoice st.sample_pubkeys "" o.r1)),
                     ("requesterPubkey", Json.str st.requester_pubkey),
                     ("limit", Json.num (randint 10 50 o.r2 : Int))]
      let params := if o.flag
        then params ++ [("before", Json.str (beforeCursor o.t1 o.r3 o.r4))] else params
      [clientGet "/get-posts" params]
  | .get_replies_by_post =>
      let params := [("post", Json.str (randchoice st.sample_post_ids "" o.r1)),
                     ("requesterPubkey", Json.str st.requester_pubkey),
                     ("limit", Json.num (randint 10 30 o.r2 : Int))]
      let params := if o.flag
        then params ++ [("before", Json.str (beforeCursor o.t1 o.r3 o.r4))] else params
      [clientGet "/get-replies" params]
  | .get_replies_by_user =>
      let params := [("user", Json.str (randchoice st.sample_pubkeys "" o.r1)),
                     ("requesterPubkey", Json.str st.requester_pubkey),
                     ("limit", Json.num (randint 10 30 o.r2 : Int))]
      let params := if o.flag
        then params ++ [("before", Json.str (beforeCursor o.t1 o.r3 o.r4))] else params
      [clientGet "/get-replies" params]
  | .get_post_details =>
      [clientGet "/get-post-details"
        [("id", Json.str (randchoice st.sample_post_ids "" o.r1)),
         ("requesterPubkey", Json.str st.requester_pubkey)]]
  | .get_user_details =>
      [clientGet "/get-user-details"
        [("user", Json.str (randchoice st.sample_pubkeys "" o.r1)),
         ("requesterPubkey", Json.str st.requester_pubkey)]]
  | .get_blocked_users =>
      let params := [("requesterPubkey", Json.str st.requester_pubkey),
                     ("limit", Json.num (randint 10 50 o.r1 : Int))]
      let params := if o.flag
        then params ++ [("before", Json.str (beforeCursor o.t1 o.r2 o.r3))] else params
      [clientGet "/get-blocked-users" params]
  | .get_followed_users =>
      let params := [("requesterPubkey", Json.str (randchoice st.users_with_follows "" o.r1)),
                     ("limit", Json.num (randint 10 50 o.r2 : Int))]
      let params := if o.flag
        then params ++ [("before", Json.str (beforeCursor o.t1 o.r3 o.r4))] else params
      [clientGet "/get-followed-users" params]
  | .test_health_endpoint =>
      [clientGet "/health" []]
  | .rapid_posts_watching =>
      [clientGet "/get-posts-watching"
        [("requesterPubkey", Json.str st.requester_pubkey),
         ("limit", Json.num 100)]]
  | .rapid_pagination_test =>
      let base_params := [("requesterPubkey", Json.str st.requester_pubkey),
                          ("limit", Json.num 50)]
      (List.zip (rapid_pagination_timestamps o) [o.r1, o.r2, o.r3]).map
        (fun p => clientGet "/get-posts-watching"
          (base_params ++
            [("before", Json.str (toString p.1 ++ "_" ++ toString (randint 1 1000 p.2)))]))
  | .browse_following_feed =>
      [clientGet "/get-content-following"
        [("requesterPubkey", Json.str (randchoice st.users_with_follows "" o.r1)),
         ("limit", Json.num (randchoice [10, 20, 30] 0 o.r2 : Int))]]
  | .browse_watching_feed =>
      [clientGet "/get-posts-watching"
        [("requesterPubkey", Json.str st.requester_pubkey),
         ("limit", Json.num (randchoice [20, 30, 40] 0 o.r1 : Int))]]
  | .check_notifications =>
      [clientGet "/get-notifications"
        [("user", Json.str st.requester_pubkey),
         ("requesterPubkey", Json.str st.requester_pubkey),
         ("limit", Json.num 20)]]
  | .check_mentions =>
      [clientGet "/get-mentions"
        [("user", Json.str st.requester_pubkey),
         ("requesterPubkey", Json.str st.requester_pubkey),
         ("limit", Json.num 20)]]
  | .view_post_details =>
      let post_id := if !st.session_posts.isEmpty
        then randchoice st.session_posts Json.null o.r1
        else Json.str fallback_post_id
      [clientGet "/get-post-details"
        [("id", post_id),
         ("requesterPubkey", Json.str st.requester_pubkey)]]
  | .browse_user_discovery =>
      [clientGet "/get-users"
        [("requesterPubkey", Json.str st.requester_pubkey),
         ("limit", Json.num (randchoice [20, 50] 0 o.r1 : Int))]]
  | .check_own_posts =>
      [clientGet "/get-posts"
        [("user", Json.str st.requester_pubkey),
         ("requesterPubkey", Json.str st.requester_pubkey),
         ("limit", Json.num 20)]]
  | .view_user_profile =>
      [clientGet "/get-user-details"
        [("user", Json.str (randchoice st.sample_pubkeys "" o.r1)),
         ("requesterPubkey", Json.str st.requester_pubkey)]]

/-- The response classification of each task, transcribing its
`if response.status_code == …` chain.  `response.success()` is `true`,
`response.failure(…)` is `false`; the failure message (which interpolates
`response.text`) does not influence the classification. -/
def classify : TaskId → Response → Bool
  | .get_posts_watching, resp => resp.status_code == 200
  | .get_content_following, resp =>
      if resp.status_code == 200 then true
      else if resp.status_code == 404 then true
      else false
  | .get_mentions, resp => resp.status_code == 200
  | .get_notifications, resp => resp.status_code == 200
  | .get_notification_count, resp =>
      if resp.status_code == 200 then true
      else if resp.status_code == 404 then true
      else false
  | .get_users, resp => resp.status_code == 200
  | .get_posts, resp => resp.status_code == 200
  | .get_replies_by_post, resp => resp.status_code == 200
  | .get_replies_by_user, resp => resp.status_code == 200
  | .get_post_details, resp => resp.status_code == 200
  | .get_user_details, resp => resp.status_code == 200
  | .get_blocked_users, resp => resp.status_code == 200
  | .get_followed_users, resp => resp.status_code == 200
  | .test_health_endpoint, resp => resp.status_code == 200
  | .rapid_posts_watching, resp => resp.status_code == 200
  | .rapid_pagination_test, resp => resp.status_code == 200
  | .browse_following_feed, resp =>
      if resp.status_code == 200 then
        match resp.jsonBody with
        | some _ => true
        | none => true
      else if resp.status_code == 404 then true
      else false
  | .browse_watching_feed, resp => resp.status_code == 200
  | .check_notifications, resp => resp.status_code == 200
  | .check_mentions, resp => resp.status_code == 200
  | .view_post_details, resp => resp.status_code == 200
  | .browse_user_discovery, resp => resp.status_code == 200
  | .check_own_posts, resp => resp.status_code == 200
  | .view_user_profile, resp => resp.status_code == 200

namespace KWebappRealisticUser

/-- Test whether `pat` occurs at the start of `hay` (Python string
containment, auxiliary). -/
def listHasPre : List Char → List Char → Bool
  | _, [] => true
  | [], _ :: _ => false
  | c :: cs, d :: ds => c == d && listHasPre cs ds

/-- Python substring test `pat in hay` on strings, as used by `'id' in post`
when a harvested post is itself a string. -/
def listHasSub (hay pat : List Char) : Bool :=
  match hay with
  | [] => pat.isEmpty
  | _ :: rest => listHasPre hay pat || listHasSub rest pat

/-- Loop `for post in data['posts'][:3]` of `browse_following_feed`: the
values appended to `self.session_posts`.  For a JSON-object post the loop
appends `post['id']` when the key is present; on a list or string post the
`'id' in post` test may succeed but `post['id']` then raises `TypeError`,
and on any other post `'id' in post` itself raises — the bare `except`
catches the error, keeping the appends made so far. -/
def harvestLoop : List Json → List Json
  | [] => []
  | .obj fs :: rest =>
      match Json.lookupField fs "id" with
      | some v => v :: harvestLoop rest
      | none => harvestLoop rest
  | .arr xs :: rest =>
      if xs.any (fun x => x matches Json.str "id") then [] else harvestLoop rest
  | .str s :: rest =>
      if listHasSub s.toList "id".toList then [] else harvestLoop rest
  | _ :: _ => []

/-- Effect of the `try` block of `browse_following_feed` on a parsed body
`data`: the list of values appended to `self.session_posts`.  The guard is
`if 'posts' in data and data['posts']:`; slicing `data['posts'][:3]` takes
the first three entries of a list (a sliced string iterates single
characters, which never contain `'id'`; any non-sliceable value raises,
landing in the bare `except` with nothing appended). -/
def harvestPosts (data : Json) : List Json :=
  match data with
  | .obj fs =>
      match Json.lookupField fs "posts" with
      | some posts =>
          if posts.truthy then
            match posts with
            | .arr elems => harvestLoop (elems.take 3)
            | _ => []
          else []
      | none => []
  | _ => []

end KWebappRealisticUser

/-- State effect of handling one response.  Only
`KWebappRealisticUser.browse_following_feed` writes to the virtual user's
state: on a 200 response whose body parses, it appends the harvested post
IDs to `self.session_posts`; every other task (and every other branch)
leaves the state untouched. -/
def updateState (t : TaskId) (st : UserState) (resp : Response) : UserState :=
  match t with
  | .browse_following_feed =>
      if resp.status_code == 200 then
        match resp.jsonBody with
        | some data =>
            { st with session_posts :=
                st.session_posts ++ KWebappRealisticUser.harvestPosts data }
        | none => st
      else st
  | _ => st

/-- The URL path each task requests. -/
def taskPath : TaskId → String
  | .get_posts_watching => "/get-posts-watching"
  | .get_content_following => "/get-content-following"
  | .get_mentions => "/get-mentions"
  | .get_notifications => "/get-notifications"
  | .get_notification_count => "/get-notification-count"
  | .get_users => "/get-users"
  | .get_posts => "/get-posts"
  | .get_replies_by_post => "/get-replies"
  | .get_replies_by_user => "/get-replies"
  | .get_post_details => "/get-post-details"
  | .get_user_details => "/get-user-details"
  | .get_blocked_users => "/get-blocked-users"
  | .get_followed_users => "/get-followed-users"
  | .test_health_endpoint => "/health"
  | .rapid_posts_watching => "/get-posts-watching"
  | .rapid_pagination_test => "/get-posts-watching"
  | .browse_following_feed => "/get-content-following"
  | .browse_watching_feed => "/get-posts-watching"
  | .check_notifications => "/get-notifications"
  | .check_mentions => "/get-mentions"
  | .view_post_details => "/get-post-details"
  | .browse_user_discovery => "/get-users"
  | .check_own_posts => "/get-posts"
  | .view_user_profile => "/get-user-details"

/-- The read endpoints of the target API exercised by the scripts. -/
def endpoints : List String :=
  ["/get-posts-watching", "/get-content-following", "/get-mentions",
   "/get-notifications", "/get-notification-count", "/get-users",
   "/get-posts", "/get-replies", "/get-post-details", "/get-user-details",
   "/get-blocked-users", "/get-followed-users", "/health"]

/-- The behavior profiles: the three user classes and the subclass
`WebsiteUser(KWebappAPIUser)`. -/
inductive Profile where
  | KWebappAPIUser
  | KWebappHeavyLoadUser
  | KWebappRealisticUser
  | WebsiteUser
deriving DecidableEq, Fintype

/-- Weighted task list of `KWebappAPIUser` (each pair is a method and its
`@task(n)` weight), inherited unchanged by `WebsiteUser`. -/
def api_task_list : List (TaskId × Nat) :=
  [(.get_posts_watching, 5), (.get_content_following, 3), (.get_mentions, 2),
   (.get_notifications, 3), (.get_notification_count, 1), (.get_users, 2),
   (.get_posts, 6), (.get_replies_by_post, 4), (.get_replies_by_user, 3),
   (.get_post_details, 4), (.get_user_details, 2), (.get_blocked_users, 1),
   (.get_followed_users, 1), (.test_health_endpoint, 1)]

/-- The weighted tasks of each profile. -/
def profileTasks : Profile → List (TaskId × Nat)
  | .KWebappAPIUser => api_task_list
  | .KWebappHeavyLoadUser => [(.rapid_posts_watching, 5), (.rapid_pagination_test, 3)]
  | .KWebappRealisticUser =>
      [(.browse_following_feed, 10), (.browse_watching_feed, 5),
       (.check_notifications, 3), (.check_mentions, 2), (.view_post_details, 4),
       (.browse_user_discovery, 2), (.check_own_posts, 2), (.view_user_profile, 1)]
  | .WebsiteUser => api_task_list

/-- The `on_start` initialisation of each profile (`WebsiteUser` inherits
`KWebappAPIUser.on_start`). -/
def profileStart : Profile → Nat → UserState
  | .KWebappAPIUser, r => KWebappAPIUser.on_start r
  | .KWebappHeavyLoadUser, r => KWebappHeavyLoadUser.on_start r
  | .KWebappRealisticUser, r => KWebappRealisticUser.on_start r
  | .WebsiteUser, r => KWebappAPIUser.on_start r

/-- States a virtual user of profile `p` can be in: freshly initialised by
the profile's `on_start`, or obtained from a reachable state by running one
of the profile's own tasks against one response. -/
inductive Reachable (p : Profile) : UserState → Prop where
  | start : ∀ r : Nat, Reachable p (profileStart p r)
  | step : ∀ (st : UserState) (t : TaskId) (resp : Response),
      t ∈ (profileTasks p).map Prod.fst →
      Reachable p st → Reachable p (updateState t st resp)

/-- A `random.choice` result is an element of the (non-empty) list. -/
theorem randchoice_mem {α : Type} (xs : List α) (d : α) (r : Nat) (h : xs ≠ []) :
    randchoice xs d r ∈ xs := by
  unfold randchoice
  have hlen : 0 < xs.length := List.length_pos.mpr h
  have hlt : r % xs.length < xs.length := Nat.mod_lt _ hlen
  rw [List.getD_eq_getElem xs d hlt]
  exact List.getElem_mem hlt

/-- A `random.randint(a, b)` result lies in the inclusive range. -/
theorem randint_bounds (a b r : Nat) (h : a ≤ b) :
    a ≤ randint a b r ∧ randint a b r ≤ b := by
  unfold randint
  have hpos : 0 < b + 1 - a := by omega
  have := Nat.mod_lt r hpos
  omega

/-- The tasks whose classification additionally accepts status 404. -/
def acceptsNotFound : TaskId → Bool
  | .get_content_following => true
  | .get_notification_count => true
  | .browse_following_feed => true
  | _ => false

/-- Every task's classification reduces to a pure function of the status
code: 200 always passes, 404 passes exactly for the `acceptsNotFound`
tasks, and nothing else passes. -/
theorem classify_eq_status (t : TaskId) (resp : Response) :
    classify t resp
      = (resp.status_code == 200 || (acceptsNotFound t && resp.status_code == 404)) := by
  obtain ⟨sc, txt, body⟩ := resp
  cases t <;> cases body <;>
    simp only [classify, acceptsNotFound, Bool.false_and, Bool.true_and, Bool.or_false] <;>
    (by_cases h200 : sc == 200 <;> by_cases h404 : sc == 404 <;> simp [h200, h404])

/-- No task's handler writes any state field other than `session_posts`,
and `session_posts` is only ever extended (by appending the IDs harvested
by `browse_following_feed`). -/
theorem updateState_fields (t : TaskId) (st : UserState) (resp : Response) :
    (updateState t st resp).sample_pubkeys = st.sample_pubkeys ∧
    (updateState t st resp).sample_post_ids = st.sample_post_ids ∧
    (updateState t st resp).users_with_follows = st.users_with_follows ∧
    (updateState t st resp).requester_pubkey = st.requester_pubkey ∧
    ∃ harvested, (updateState t st resp).session_posts
        = st.session_posts ++ harvested := by
  cases t <;>
    simp only [updateState] <;>
    (try exact ⟨trivial, trivial, trivial, trivial, [], (List.append_nil _).symm⟩)
  by_cases h200 : resp.status_code == 200 <;> cases hb : resp.jsonBody <;>
    simp [h200, hb]

/-- Invariant of every reachable state of a profile: the three sample
lists keep their `on_start` values and `requester_pubkey` stays the drawn
element of `sample_pubkeys`. -/
theorem reachable_fields (p : Profile) (st : UserState) (h : Reachable p st) :
    st.sample_pubkeys = (profileStart p 0).sample_pubkeys ∧
    st.sample_post_ids = (profileStart p 0).sample_post_ids ∧
    st.users_with_follows = (profileStart p 0).users_with_follows ∧
    st.requester_pubkey ∈ st.sample_pubkeys := by
  induction h with
  | start r =>
      refine ⟨?_, ?_, ?_, ?_⟩ <;> cases p <;>
        first
        | rfl
        | (simp only [profileStart, KWebappAPIUser.on_start,
              KWebappHeavyLoadUser.on_start, KWebappRealisticUser.on_start]
           exact randchoice_mem _ _ _ (by decide))
  | step st t resp ht hr ih =>
      obtain ⟨h1, h2, h3, h4, _⟩ := updateState_fields t st resp
      refine ⟨h1.trans ih.1, h2.trans ih.2.1, h3.trans ih.2.2.1, ?_⟩
      rw [h1, h4]
      exact ih.2.2.2

/-- C1: for every task and every HTTP response, the response is classified
as success exactly when its status code is 200, except that the
following-feed tasks (`get_content_following`, `browse_following_feed`)
and `get_notification_count` additionally classify status 404 as success;
every other status code is classified as failure. -/
theorem c1_classification_rule (t : TaskId) (resp : Response) :
    classify t resp = true ↔
      (resp.status_code = 200 ∨
        (resp.status_code = 404 ∧
          (t = TaskId.get_content_following ∨ t = TaskId.browse_following_feed ∨
           t = TaskId.get_notification_count))) := by
  rw [classify_eq_status]
  cases t <;> simp [acceptsNotFound]

/-- C3: every request issued by every task of every profile is an HTTP GET
whose path lies in the fixed list of read endpoints. -/
theorem c3_get_requests_fixed_endpoints (t : TaskId) (st : UserState) (o : Rnd) :
    ∀ req ∈ requestsOf t st o, req.method = "GET" ∧ req.path ∈ endpoints := by
  have hep : taskPath t ∈ endpoints := by cases t <;> decide
  intro req hreq
  cases t <;> simp only [requestsOf, List.mem_singleton, List.mem_map] at hreq <;>
    first
    | (obtain ⟨pp, hpp, rfl⟩ := hreq; exact ⟨rfl, hep⟩)
    | (subst hreq; exact ⟨rfl, hep⟩)

/-- Witness for C3: the health-check request of `test_health_endpoint` is a
GET to a listed endpoint. -/
theorem c3_get_requests_fixed_endpoints_witness :
    (clientGet "/health" []).method = "GET" ∧ (clientGet "/health" []).path ∈ endpoints :=
  c3_get_requests_fixed_endpoints .test_health_endpoint (KWebappAPIUser.on_start 0)
    ⟨0, 0, 0, 0, false, 0, 0, 0⟩ (clientGet "/health" []) (List.mem_singleton.mpr rfl)

/-- C8: classification is a deterministic function of the status code
alone — any two responses with the same status code are classified alike
by every task — and in particular `browse_following_feed` counts a
status-200 response as success even when its body fails to parse as JSON. -/
theorem c8_classification_body_blind (t : TaskId) (r1 r2 : Response)
    (h : r1.status_code = r2.status_code) :
    classify t r1 = classify t r2 ∧
    (∀ body : String, classify TaskId.browse_following_feed
        { status_code := 200, text := body, jsonBody := none } = true) := by
  refine ⟨?_, fun body => rfl⟩
  rw [classify_eq_status, classify_eq_status, h]

/-- Witness for C8: two status-200 responses with different bodies (one of
which fails to parse) are classified alike by `browse_following_feed`. -/
theorem c8_classification_body_blind_witness :
    classify TaskId.browse_following_feed
        { status_code := 200, text := "ok", jsonBody := some (Json.arr []) }
      = classify TaskId.browse_following_feed
        { status_code := 200, text := "garbage", jsonBody := none } ∧
    (∀ body : String, classify TaskId.browse_following_feed
        { status_code := 200, text := body, jsonBody := none } = true) :=
  c8_classification_body_blind TaskId.browse_following_feed
    { status_code := 200, text := "ok", jsonBody := some (Json.arr []) }
    { status_code := 200, text := "garbage", jsonBody := none } rfl

/-- Characters of a lowercase hexadecimal identifier. -/
def isHexChar (c : Char) : Bool := c.isDigit || ('a' ≤ c && c ≤ 'f')

/-- C6: every element of every `sample_pubkeys` list and every
`sample_post_ids` list inlined in the source consists solely of
hexadecimal characters. -/
theorem c6_sample_ids_hex :
    (KWebappAPIUser.sample_pubkeys ++ KWebappAPIUser.sample_post_ids ++
     KWebappHeavyLoadUser.sample_pubkeys ++ KWebappHeavyLoadUser.sample_post_ids ++
     KWebappRealisticUser.sample_pubkeys ++ KWebappRealisticUser.sample_post_ids).all
      (fun s => s.toList.all isHexChar) = true := by decide

/-- A concrete 200 response whose JSON body carries a post ID
(`"deadbeef"`) that appears in no hardcoded sample list. -/
def cexResponse : Response :=
  { status_code := 200
    text := "ok"
    jsonBody := some (Json.obj
      [("posts", Json.arr [Json.obj [("id", Json.str "deadbeef")]])]) }

/-- Concrete oracle used by counterexamples and witnesses. -/
def cexRnd : Rnd := ⟨0, 0, 0, 0, false, 0, 0, 0⟩

/-- Counterexample to C4 as stated: running `browse_following_feed` against
`cexResponse` changes the virtual user's stored state — the harvested post
ID is appended to `session_posts`. -/
theorem c4_counterexample :
    updateState .browse_following_feed (KWebappRealisticUser.on_start 0) cexResponse
      ≠ KWebappRealisticUser.on_start 0 := by
  intro h
  have hs := congrArg UserState.session_posts h
  simp [updateState, cexResponse, KWebappRealisticUser.on_start,
    KWebappRealisticUser.harvestPosts, KWebappRealisticUser.harvestLoop,
    Json.lookupField, Json.truthy] at hs

/-- C4 (amended): every task leaves the hardcoded test data (the three
sample lists and the requester pubkey) unchanged after `on_start`, and
every task except `browse_following_feed` leaves the whole per-user state
unchanged; `browse_following_feed` can only append harvested IDs to
`session_posts`. -/
theorem c4_tasks_frame (t : TaskId) (st : UserState) (resp : Response) :
    ((updateState t st resp).sample_pubkeys = st.sample_pubkeys ∧
     (updateState t st resp).sample_post_ids = st.sample_post_ids ∧
     (updateState t st resp).users_with_follows = st.users_with_follows ∧
     (updateState t st resp).requester_pubkey = st.requester_pubkey) ∧
    (t ≠ .browse_following_feed → updateState t st resp = st) ∧
    (∃ harvested, (updateState t st resp).session_posts
        = st.session_posts ++ harvested) := by
  obtain ⟨h1, h2, h3, h4, h5⟩ := updateState_fields t st resp
  refine ⟨⟨h1, h2, h3, h4⟩, ?_, h5⟩
  intro hne
  cases t <;> first | rfl | exact absurd rfl hne

/-- Witness for C4 (amended): a task other than `browse_following_feed`
leaves the state untouched. -/
theorem c4_tasks_frame_witness :
    updateState .get_posts_watching (KWebappAPIUser.on_start 0) cexResponse
      = KWebappAPIUser.on_start 0 :=
  (c4_tasks_frame .get_posts_watching (KWebappAPIUser.on_start 0) cexResponse).2.1
    (by decide)

/-- Counterexample to C5 as stated: the profiles use neither the same
inlined sample data (`KWebappAPIUser`'s pubkey list differs from
`KWebappHeavyLoadUser`'s) nor the same endpoints (`/get-mentions` is
requested by `KWebappAPIUser` but by no `KWebappHeavyLoadUser` task). -/
theorem c5_counterexample :
    KWebappAPIUser.sample_pubkeys ≠ KWebappHeavyLoadUser.sample_pubkeys ∧
    "/get-mentions" ∈ (profileTasks .KWebappAPIUser).map (fun q => taskPath q.1) ∧
    "/get-mentions" ∉ (profileTasks .KWebappHeavyLoadUser).map (fun q => taskPath q.1) :=
  ⟨by decide, by decide, by decide⟩

/-- C5 (amended): `KWebappHeavyLoadUser` and `KWebappRealisticUser` share
identical inlined pubkey and post-ID lists (while `KWebappAPIUser`'s lists
differ); every endpoint of the heavy and realistic profiles is also an
endpoint of `KWebappAPIUser`; and classification is per-endpoint
consistent: any two tasks requesting the same path classify every response
identically. -/
theorem c5_profile_equivalence :
    (KWebappHeavyLoadUser.sample_pubkeys = KWebappRealisticUser.sample_pubkeys ∧
     KWebappHeavyLoadUser.sample_post_ids = KWebappRealisticUser.sample_post_ids) ∧
    (∀ q ∈ profileTasks .KWebappHeavyLoadUser,
        taskPath q.1 ∈ (profileTasks .KWebappAPIUser).map (fun q2 => taskPath q2.1)) ∧
    (∀ q ∈ profileTasks .KWebappRealisticUser,
        taskPath q.1 ∈ (profileTasks .KWebappAPIUser).map (fun q2 => taskPath q2.1)) ∧
    (∀ (t1 t2 : TaskId) (resp : Response), taskPath t1 = taskPath t2 →
        classify t1 resp = classify t2 resp) := by
  have hnf : ∀ a b : TaskId, taskPath a = taskPath b →
      acceptsNotFound a = acceptsNotFound b := by decide
  refine ⟨⟨by decide, by decide⟩, by decide, by decide, ?_⟩
  intro t1 t2 resp hpath
  rw [classify_eq_status, classify_eq_status, hnf t1 t2 hpath]

/-- Witness for C5 (amended): the two tasks hitting
`/get-content-following` classify a status-404 response identically. -/
theorem c5_profile_equivalence_witness :
    classify TaskId.get_content_following
        { status_code := 404, text := "", jsonBody := none }
      = classify TaskId.browse_following_feed
        { status_code := 404, text := "", jsonBody := none } :=
  c5_profile_equivalence.2.2.2 TaskId.get_content_following
    TaskId.browse_following_feed
    { status_code := 404, text := "", jsonBody := none } rfl

/-- Counterexample to C9 as stated: `get_users` draws its limit from
`randint(10, 100)` and attains 100 (here at oracle draw 90), though it is
not `rapid_posts_watching`. -/
theorem c9_counterexample :
    ((requestsOf .get_users (KWebappAPIUser.on_start 0)
        ⟨90, 0, 0, 0, false, 0, 0, 0⟩).map (fun req => req.findParam "limit")
      = [some (Json.num 100)]) ∧
    TaskId.get_users ≠ TaskId.rapid_posts_watching :=
  ⟨rfl, by decide⟩

/-- C10: every invocation of `rapid_pagination_test` issues exactly three
GET requests to `/get-posts-watching`; their `before` cursors are built,
in order, from the `timestamps` list — one, two and three hours before the
successive clock reads — which is strictly decreasing and everywhere
strictly below the first (hence every) clock read, provided the monotone
clock advances by less than one hour between consecutive reads. -/
theorem c10_rapid_pagination (st : UserState) (o : Rnd)
    (hmono1 : o.t1 ≤ o.t2) (hmono2 : o.t2 ≤ o.t3)
    (hgap1 : o.t2 < o.t1 + 3600000000) (hgap2 : o.t3 < o.t2 + 3600000000) :
    (requestsOf .rapid_pagination_test st o).length = 3 ∧
    (∀ req ∈ requestsOf .rapid_pagination_test st o,
        req.method = "GET" ∧ req.path = "/get-posts-watching") ∧
    List.Chain' (fun a b => b < a) (rapid_pagination_timestamps o) ∧
    (∀ ts ∈ rapid_pagination_timestamps o, ts < o.t1) ∧
    (requestsOf .rapid_pagination_test st o).map (fun req => req.findParam "before")
      = [some (Json.str (toString (o.t1 - 3600000000) ++ "_"
            ++ toString (randint 1 1000 o.r1))),
         some (Json.str (toString (o.t2 - 7200000000) ++ "_"
            ++ toString (randint 1 1000 o.r2))),
         some (Json.str (toString (o.t3 - 10800000000) ++ "_"
            ++ toString (randint 1 1000 o.r3)))] := by
  refine ⟨rfl, ?_, ?_, ?_, rfl⟩
  · intro req hreq
    simp only [requestsOf, List.mem_map] at hreq
    obtain ⟨pp, hpp, rfl⟩ := hreq
    exact ⟨rfl, rfl⟩
  · simp only [rapid_pagination_timestamps, List.chain'_cons, List.chain'_singleton,
      and_true]
    omega
  · intro ts hts
    simp only [rapid_pagination_timestamps, List.mem_cons, List.not_mem_nil,
      or_false] at hts
    rcases hts with rfl | rfl | rfl <;> omega

/-- Witness for C10 at a concrete state and oracle with equal clock reads. -/
theorem c10_rapid_pagination_witness :
    (requestsOf .rapid_pagination_test (KWebappHeavyLoadUser.on_start 0)
      ⟨1, 2, 3, 0, false, 1700000000000000, 1700000000000000, 1700000000000000⟩).length
      = 3 :=
  (c10_rapid_pagination (KWebappHeavyLoadUser.on_start 0)
    ⟨1, 2, 3, 0, false, 1700000000000000, 1700000000000000, 1700000000000000⟩
    (by decide) (by decide) (by decide) (by decide)).1

/-- Counterexample to C2 as stated: after one `browse_following_feed`
response carrying a foreign post ID, `view_post_details` sends that ID —
which is an element of no hardcoded sample list — as its `id` parameter. -/
theorem c2_counterexample :
    ((requestsOf .view_post_details
        (updateState .browse_following_feed (KWebappRealisticUser.on_start 0)
          cexResponse)
        cexRnd).map (fun req => req.findParam "id")
      = [some (Json.str "deadbeef")]) ∧
    "deadbeef" ∉ KWebappRealisticUser.sample_pubkeys ∧
    "deadbeef" ∉ KWebappRealisticUser.sample_post_ids ∧
    "deadbeef" ∉ KWebappRealisticUser.users_with_follows :=
  ⟨rfl, by decide, by decide, by decide⟩

/-- C9 (amended): whenever a request includes a `limit` parameter, its
value `n` satisfies `10 ≤ n ≤ 100`; the bound 100 is attained only by
`KWebappHeavyLoadUser.rapid_posts_watching` (which always sends 100) and
by `KWebappAPIUser.get_users` (whose draw `randint(10, 100)` can yield
100). -/
theorem c9_limit_bounds (t : TaskId) (st : UserState) (o : Rnd)
    (req : Request) (hreq : req ∈ requestsOf t st o)
    (n : Int) (hn : ("limit", Json.num n) ∈ req.params) :
    10 ≤ n ∧ n ≤ 100 ∧
      (n = 100 → t = TaskId.rapid_posts_watching ∨ t = TaskId.get_users) := by
  cases t
  case get_posts_watching =>
    simp only [requestsOf, List.mem_singleton] at hreq
    subst hreq
    simp only [clientGet] at hn
    split at hn <;> simp at hn <;>
      (have hb := randint_bounds 10 50 o.r1 (by decide)
       exact ⟨by omega, by omega, fun hc => absurd hc (by omega)⟩)
  case get_content_following =>
    simp only [requestsOf, List.mem_singleton] at hreq
    subst hreq
    simp only [clientGet] at hn
    split at hn <;> simp at hn <;>
      (have hb := randint_bounds 10 50 o.r2 (by decide)
       exact ⟨by omega, by omega, fun hc => absurd hc (by omega)⟩)
  case get_mentions =>
    simp only [requestsOf, List.mem_singleton] at hreq
    subst hreq
    simp only [clientGet] at hn
    split at hn <;> simp at hn <;>
      (have hb := randint_bounds 10 30 o.r2 (by decide)
       exact ⟨by omega, by omega, fun hc => absurd hc (by omega)⟩)
  case get_notifications =>
    simp only [requestsOf, List.mem_singleton] at hreq
    subst hreq
    simp only [clientGet] at hn
    split at hn <;> simp at hn <;>
      (have hb := randint_bounds 10 30 o.r2 (by decide)
       exact ⟨by omega, by omega, fun hc => absurd hc (by omega)⟩)
  case get_notification_count =>
    simp only [requestsOf, List.mem_singleton] at hreq
    subst hreq
    simp only [clientGet] at hn
    simp at hn
  case get_users =>
    simp only [requestsOf, List.mem_singleton] at hreq
    subst hreq
    simp only [clientGet] at hn
    split at hn <;> simp at hn <;>
      (have hb := randint_bounds 10 100 o.r1 (by decide)
       exact ⟨by omega, by omega, fun _ => Or.inr rfl⟩)
  case get_posts =>
    simp only [requestsOf, List.mem_singleton] at hreq
    subst hreq
    simp only [clientGet] at hn
    split at hn <;> simp at hn <;>
      (have hb := randint_bounds 10 50 o.r2 (by decide)
       exact ⟨by omega, by omega, fun hc => absurd hc (by omega)⟩)
  case get_replies_by_post =>
    simp only [requestsOf, List.mem_singleton] at hreq
    subst hreq
    simp only [clientGet] at hn
    split at hn <;> simp at hn <;>
      (have hb := randint_bounds 10 30 o.r2 (by decide)
       exact ⟨by omega, by omega, fun hc => absurd hc (by omega)⟩)
  case get_replies_by_user =>
    simp only [requestsOf, List.mem_singleton] at hreq
    subst hreq
    simp only [clientGet] at hn
    split at hn <;> simp at hn <;>
      (have hb := randint_bounds 10 30 o.r2 (by decide)
       exact ⟨by omega, by omega, fun hc => absurd hc (by omega)⟩)
  case get_post_details =>
    simp only [requestsOf, List.mem_singleton] at hreq
    subst hreq
    simp only [clientGet] at hn
    simp at hn
  case get_user_details =>
    simp only [requestsOf, List.mem_singleton] at hreq
    subst hreq
    simp only [clientGet] at hn
    simp at hn
  case get_blocked_users =>
    simp only [requestsOf, List.mem_singleton] at hreq
    subst hreq
    simp only [clientGet] at hn
    split at hn <;> simp at hn <;>
      (have hb := randint_bounds 10 50 o.r1 (by decide)
       exact ⟨by omega, by omega, fun hc => absurd hc (by omega)⟩)
  case get_followed_users =>
    simp only [requestsOf, List.mem_singleton] at hreq
    subst hreq
    simp only [clientGet] at hn
    split at hn <;> simp at hn <;>
      (have hb := randint_bounds 10 50 o.r2 (by decide)
       exact ⟨by omega, by omega, fun hc => absurd hc (by omega)⟩)
  case test_health_endpoint =>
    simp only [requestsOf, List.mem_singleton] at hreq
    subst hreq
    simp only [clientGet] at hn
    simp at hn
  case rapid_posts_watching =>
    simp only [requestsOf, List.mem_singleton] at hreq
    subst hreq
    simp only [clientGet] at hn
    simp at hn
    exact ⟨by omega, by omega, fun _ => Or.inl rfl⟩
  case rapid_pagination_test =>
    simp only [requestsOf, List.mem_map] at hreq
    obtain ⟨pp, hpp, rfl⟩ := hreq
    simp only [clientGet] at hn
    simp at hn
    exact ⟨by omega, by omega, fun hc => absurd hc (by omega)⟩
  case browse_following_feed =>
    simp only [requestsOf, List.mem_singleton] at hreq
    subst hreq
    simp only [clientGet] at hn
    simp at hn
    have hm := randchoice_mem ([10, 20, 30] : List Int) 0 o.r2 (by decide)
    simp at hm
    rcases hm with h | h | h <;> rw [h] at hn <;>
      exact ⟨by omega, by omega, fun hc => absurd hc (by omega)⟩
  case browse_watching_feed =>
    simp only [requestsOf, List.mem_singleton] at hreq
    subst hreq
    simp only [clientGet] at hn
    simp at hn
    have hm := randchoice_mem ([20, 30, 40] : List Int) 0 o.r1 (by decide)
    simp at hm
    rcases hm with h | h | h <;> rw [h] at hn <;>
      exact ⟨by omega, by omega, fun hc => absurd hc (by omega)⟩
  case check_notifications =>
    simp only [requestsOf, List.mem_singleton] at hreq
    subst hreq
    simp only [clientGet] at hn
    simp at hn
    exact ⟨by omega, by omega, fun hc => absurd hc (by omega)⟩
  case check_mentions =>
    simp only [requestsOf, List.mem_singleton] at hreq
    subst hreq
    simp only [clientGet] at hn
    simp at hn
    exact ⟨by omega, by omega, fun hc => absurd hc (by omega)⟩
  case view_post_details =>
    simp only [requestsOf, List.mem_singleton] at hreq
    subst hreq
    simp only [clientGet] at hn
    simp at hn
  case browse_user_discovery =>
    simp only [requestsOf, List.mem_singleton] at hreq
    subst hreq
    simp only [clientGet] at hn
    simp at hn
    have hm := randchoice_mem ([20, 50] : List Int) 0 o.r1 (by decide)
    simp at hm
    rcases hm with h | h <;> rw [h] at hn <;>
      exact ⟨by omega, by omega, fun hc => absurd hc (by omega)⟩
  case check_own_posts =>
    simp only [requestsOf, List.mem_singleton] at hreq
    subst hreq
    simp only [clientGet] at hn
    simp at hn
    exact ⟨by omega, by omega, fun hc => absurd hc (by omega)⟩
  case view_user_profile =>
    simp only [requestsOf, List.mem_singleton] at hreq
    subst hreq
    simp only [clientGet] at hn
    simp at hn

/-- Witness for C9: the limit `check_notifications` sends at a concrete
state and oracle is within bounds. -/
theorem c9_limit_bounds_witness :
    10 ≤ (20 : Int) ∧ (20 : Int) ≤ 100 ∧
      ((20 : Int) = 100 →
        TaskId.check_notifications = TaskId.rapid_posts_watching ∨
        TaskId.check_notifications = TaskId.get_users) :=
  c9_limit_bounds .check_notifications (KWebappRealisticUser.on_start 0) cexRnd
    (clientGet "/get-notifications"
      [("user", Json.str ((KWebappRealisticUser.on_start 0).requester_pubkey)),
       ("requesterPubkey",
          Json.str ((KWebappRealisticUser.on_start 0).requester_pubkey)),
       ("limit", Json.num 20)])
    (List.mem_singleton.mpr rfl) 20
    (by simp [clientGet])

/-- Identifier parameters of any single task execution: each value keyed
`requesterPubkey`, `user`, `post` or `id` is drawn from the state's sample
lists or is the stored requester pubkey — except `view_post_details`,
which falls back to `session_posts` or its hardcoded fallback ID. -/
theorem identifier_sources_aux (t : TaskId) (st : UserState) (o : Rnd)
    (hpubne : st.sample_pubkeys ≠ []) (hpostne : st.sample_post_ids ≠ [])
    (hfwne : st.users_with_follows ≠ [])
    (req : Request) (hreq : req ∈ requestsOf t st o)
    (k : String) (v : Json) (hkv : (k, v) ∈ req.params)
    (hk : k = "requesterPubkey" ∨ k = "user" ∨ k = "post" ∨ k = "id") :
    (∃ s, v = Json.str s ∧
        (s ∈ st.sample_pubkeys ∨ s ∈ st.sample_post_ids ∨
         s ∈ st.users_with_follows ∨ s = st.requester_pubkey)) ∨
    (t = TaskId.view_post_details ∧
        (v ∈ st.session_posts ∨ v = Json.str fallback_post_id)) := by
  revert hk
  cases t <;>
    first
      | (simp only [requestsOf, List.mem_singleton] at hreq
         subst hreq
         simp only [clientGet] at hkv)
      | (simp only [requestsOf, List.mem_map] at hreq
         obtain ⟨pp, hpp, rfl⟩ := hreq
         simp only [clientGet] at hkv)
  all_goals try split at hkv
  all_goals
    simp only [List.mem_append, List.mem_cons, List.not_mem_nil, or_false,
      Prod.mk.injEq] at hkv
  all_goals casesm* _ ∨ _, _ ∧ _
  all_goals subst_vars
  all_goals
    first
      | (intro hk; exact absurd hk (by decide))
      | (intro _; exact Or.inl ⟨_, rfl, Or.inr (Or.inr (Or.inr rfl))⟩)
      | (intro _; exact Or.inl ⟨_, rfl, Or.inl (randchoice_mem _ _ _ hpubne)⟩)
      | (intro _; exact Or.inl ⟨_, rfl, Or.inr (Or.inl (randchoice_mem _ _ _ hpostne))⟩)
      | (intro _
         exact Or.inl ⟨_, rfl, Or.inr (Or.inr (Or.inl (randchoice_mem _ _ _ hfwne)))⟩)
      | (rename_i hcond
         intro _
         refine Or.inr ⟨rfl, Or.inl ?_⟩
         refine randchoice_mem _ _ _ (fun hnil => ?_)
         rw [hnil] at hcond
         simp at hcond)
      | (intro _
         exact Or.inr ⟨rfl, Or.inr rfl⟩)

/-- C2 (amended): for every behavior profile, every reachable virtual-user
state and every task of that profile, each identifier request parameter
(`requesterPubkey`, `user`, `post`, `id`) is drawn from the state's
hardcoded sample lists or is the stored requester pubkey (itself drawn
from `sample_pubkeys` in `on_start`) — except
`KWebappRealisticUser.view_post_details`, whose `id` comes from
`session_posts` (IDs harvested from earlier `browse_following_feed`
response bodies) when that list is non-empty, and from its hardcoded
fallback post ID otherwise. -/
theorem c2_identifier_sources (p : Profile) (st : UserState)
    (hst : Reachable p st)
    (t : TaskId) (ht : t ∈ (profileTasks p).map Prod.fst)
    (o : Rnd) (req : Request) (hreq : req ∈ requestsOf t st o)
    (k : String) (v : Json) (hkv : (k, v) ∈ req.params)
    (hk : k = "requesterPubkey" ∨ k = "user" ∨ k = "post" ∨ k = "id") :
    (∃ s, v = Json.str s ∧
        (s ∈ st.sample_pubkeys ∨ s ∈ st.sample_post_ids ∨
         s ∈ st.users_with_follows ∨ s = st.requester_pubkey)) ∨
    (t = TaskId.view_post_details ∧
        (v ∈ st.session_posts ∨ v = Json.str fallback_post_id)) := by
  obtain ⟨hpk, hpi, hfw, _⟩ := reachable_fields p st hst
  cases p
  case KWebappAPIUser =>
    exact identifier_sources_aux t st o (by rw [hpk]; decide) (by rw [hpi]; decide)
      (by rw [hfw]; decide) req hreq k v hkv hk
  case KWebappRealisticUser =>
    exact identifier_sources_aux t st o (by rw [hpk]; decide) (by rw [hpi]; decide)
      (by rw [hfw]; decide) req hreq k v hkv hk
  case WebsiteUser =>
    exact identifier_sources_aux t st o (by rw [hpk]; decide) (by rw [hpi]; decide)
      (by rw [hfw]; decide) req hreq k v hkv hk
  case KWebappHeavyLoadUser =>
    simp only [profileTasks, List.map_cons, List.map_nil, List.mem_cons,
      List.not_mem_nil, or_false] at ht
    rcases ht with rfl | rfl
    · simp only [requestsOf, List.mem_singleton] at hreq
      subst hreq
      simp only [clientGet, List.mem_cons, List.not_mem_nil, or_false,
        Prod.mk.injEq] at hkv
      rcases hkv with ⟨rfl, rfl⟩ | ⟨rfl, rfl⟩
      · exact Or.inl ⟨_, rfl, Or.inr (Or.inr (Or.inr rfl))⟩
      · exact absurd hk (by decide)
    · simp only [requestsOf, List.mem_map] at hreq
      obtain ⟨pp, hpp, rfl⟩ := hreq
      simp only [clientGet, List.mem_append, List.mem_cons, List.not_mem_nil,
        or_false, or_assoc, Prod.mk.injEq] at hkv
      rcases hkv with ⟨rfl, rfl⟩ | ⟨rfl, rfl⟩ | ⟨rfl, rfl⟩
      · exact Or.inl ⟨_, rfl, Or.inr (Or.inr (Or.inr rfl))⟩
      · exact absurd hk (by decide)
      · exact absurd hk (by decide)

/-- Witness for C2 (amended): the `requesterPubkey` parameter of a concrete
`get_posts_watching` request from a freshly started `KWebappAPIUser`. -/
theorem c2_identifier_sources_witness :
    (∃ s, Json.str (profileStart Profile.KWebappAPIUser 0).requester_pubkey
          = Json.str s ∧
        (s ∈ (profileStart Profile.KWebappAPIUser 0).sample_pubkeys ∨
         s ∈ (profileStart Profile.KWebappAPIUser 0).sample_post_ids ∨
         s ∈ (profileStart Profile.KWebappAPIUser 0).users_with_follows ∨
         s = (profileStart Profile.KWebappAPIUser 0).requester_pubkey)) ∨
    (TaskId.get_posts_watching = TaskId.view_post_details ∧
        (Json.str (profileStart Profile.KWebappAPIUser 0).requester_pubkey
            ∈ (profileStart Profile.KWebappAPIUser 0).session_posts ∨
         Json.str (profileStart Profile.KWebappAPIUser 0).requester_pubkey
            = Json.str fallback_post_id)) :=
  c2_identifier_sources Profile.KWebappAPIUser _ (Reachable.start 0)
    TaskId.get_posts_watching (by decide) cexRnd
    (clientGet "/get-posts-watching"
      [("requesterPubkey",
          Json.str (profileStart Profile.KWebappAPIUser 0).requester_pubkey),
       ("limit", Json.num 10)])
    (List.mem_singleton.mpr rfl)
    "requesterPubkey"
    (Json.str (profileStart Profile.KWebappAPIUser 0).requester_pubkey)
    (List.mem_cons_self _ _) (Or.inl rfl)
